import Mathlib

/-!
Shallow embedding of the buildify-3dgs transform/camera/scene core
(`include/buildify/utils/math.hpp`, `include/buildify/core/scene.hpp`,
`src/core/scene.cpp`, `src/core/context.cpp`, `include/buildify/buildify.h`).

The C++ code computes over `float`; we model the scalars by an arbitrary
linear ordered field (instantiated at `ℚ` for concrete evaluation and at
`ℝ` for claims that need genuine `sqrt`/`tan`).  The transcendental
functions `std::sqrt`, `std::tan` and the constant `std::numbers::pi_v`
are passed as explicit parameters to the definitions that use them, so
every definition stays computable; theorems instantiate them with
`Real.sqrt`, `Real.tan`, `Real.pi` where the analytic content matters.
-/

namespace Buildify

variable {α : Type} [LinearOrderedField α]

/-- `Vector3<T>` from `utils/math.hpp`: components `x, y, z`. -/
structure Vector3 (α : Type) where
  x : α
  y : α
  z : α
deriving DecidableEq

namespace Vector3

/-- Default constructor `Vector3() : x(0), y(0), z(0)`. -/
def zero : Vector3 α := ⟨0, 0, 0⟩

/-- `operator+`: componentwise addition. -/
def add (a b : Vector3 α) : Vector3 α :=
  ⟨a.x + b.x, a.y + b.y, a.z + b.z⟩

/-- `operator-`: componentwise subtraction. -/
def sub (a b : Vector3 α) : Vector3 α :=
  ⟨a.x - b.x, a.y - b.y, a.z - b.z⟩

/-- `operator*(T scalar)`: scale each component. -/
def smul (a : Vector3 α) (scalar : α) : Vector3 α :=
  ⟨a.x * scalar, a.y * scalar, a.z * scalar⟩

/-- `dot`: sum of componentwise products. -/
def dot (a b : Vector3 α) : α :=
  a.x * b.x + a.y * b.y + a.z * b.z

/-- `cross`: right-handed cross product, exactly the three expressions
    in the source. -/
def cross (a b : Vector3 α) : Vector3 α :=
  ⟨a.y * b.z - a.z * b.y,
   a.z * b.x - a.x * b.z,
   a.x * b.y - a.y * b.x⟩

/-- `length()` = `sqrt(x*x + y*y + z*z)`; the square root function is a
    parameter standing for `std::sqrt`. -/
def length (sqrt : α → α) (v : Vector3 α) : α :=
  sqrt (v.x * v.x + v.y * v.y + v.z * v.z)

/-- `normalized()` = `len > 0 ? (*this) * (1 / len) : Vector3()`. -/
def normalized (sqrt : α → α) (v : Vector3 α) : Vector3 α :=
  let len := v.length sqrt
  if 0 < len then v.smul (1 / len) else zero

end Vector3

/-- `Vector4<T>` from `utils/math.hpp`. -/
structure Vector4 (α : Type) where
  x : α
  y : α
  z : α
  w : α
deriving DecidableEq

/-- Constructor `Vector4(const Vector3& v3, T w)`. -/
def Vector4.ofVector3 (v3 : Vector3 α) (w : α) : Vector4 α :=
  ⟨v3.x, v3.y, v3.z, w⟩

/-- `Matrix4<T>`: row-major 4×4 array, spelled out as sixteen fields
    `mIJ` for `m[I][J]`. -/
structure Matrix4 (α : Type) where
  m00 : α
  m01 : α
  m02 : α
  m03 : α
  m10 : α
  m11 : α
  m12 : α
  m13 : α
  m20 : α
  m21 : α
  m22 : α
  m23 : α
  m30 : α
  m31 : α
  m32 : α
  m33 : α
deriving DecidableEq

namespace Matrix4

/-- Default constructor: zero-initialize `m`, then set the diagonal
    to 1 — i.e. the identity matrix. -/
def identity : Matrix4 α :=
  ⟨1, 0, 0, 0,
   0, 1, 0, 0,
   0, 0, 1, 0,
   0, 0, 0, 1⟩

/-- `Matrix4::translation(v)`: identity with the first three entries
    of the last column set to `v`. -/
def translation (v : Vector3 α) : Matrix4 α :=
  { identity with m03 := v.x, m13 := v.y, m23 := v.z }

/-- `Matrix4::scale(v)`: identity with the first three diagonal
    entries set to `v`. -/
def scale (v : Vector3 α) : Matrix4 α :=
  { identity with m00 := v.x, m11 := v.y, m22 := v.z }

/-- `Matrix4::perspective(fov, aspect, near, far)`.  `tan` stands for
    `std::tan` and `pi` for `std::numbers::pi_v<T>`; the source computes
    `tan_half_fov = tan(fov * 0.5f * pi / 180.0f)` (fov in degrees) and
    starts from a default-constructed (identity) matrix. -/
def perspective (tan : α → α) (pi : α) (fov aspect near far : α) : Matrix4 α :=
  let tan_half_fov := tan (fov * (1 / 2) * pi / 180)
  { identity with
    m00 := 1 / (aspect * tan_half_fov)
    m11 := 1 / tan_half_fov
    m22 := -(far + near) / (far - near)
    m23 := -(2 * far * near) / (far - near)
    m32 := -1
    m33 := 0 }

/-- `operator*(const Matrix4&)`: standard row-by-column products, the
    `k = 0..3` accumulation written out. -/
def mul (a b : Matrix4 α) : Matrix4 α :=
  ⟨a.m00 * b.m00 + a.m01 * b.m10 + a.m02 * b.m20 + a.m03 * b.m30,
   a.m00 * b.m01 + a.m01 * b.m11 + a.m02 * b.m21 + a.m03 * b.m31,
   a.m00 * b.m02 + a.m01 * b.m12 + a.m02 * b.m22 + a.m03 * b.m32,
   a.m00 * b.m03 + a.m01 * b.m13 + a.m02 * b.m23 + a.m03 * b.m33,
   a.m10 * b.m00 + a.m11 * b.m10 + a.m12 * b.m20 + a.m13 * b.m30,
   a.m10 * b.m01 + a.m11 * b.m11 + a.m12 * b.m21 + a.m13 * b.m31,
   a.m10 * b.m02 + a.m11 * b.m12 + a.m12 * b.m22 + a.m13 * b.m32,
   a.m10 * b.m03 + a.m11 * b.m13 + a.m12 * b.m23 + a.m13 * b.m33,
   a.m20 * b.m00 + a.m21 * b.m10 + a.m22 * b.m20 + a.m23 * b.m30,
   a.m20 * b.m01 + a.m21 * b.m11 + a.m22 * b.m21 + a.m23 * b.m31,
   a.m20 * b.m02 + a.m21 * b.m12 + a.m22 * b.m22 + a.m23 * b.m32,
   a.m20 * b.m03 + a.m21 * b.m13 + a.m22 * b.m23 + a.m23 * b.m33,
   a.m30 * b.m00 + a.m31 * b.m10 + a.m32 * b.m20 + a.m33 * b.m30,
   a.m30 * b.m01 + a.m31 * b.m11 + a.m32 * b.m21 + a.m33 * b.m31,
   a.m30 * b.m02 + a.m31 * b.m12 + a.m32 * b.m22 + a.m33 * b.m32,
   a.m30 * b.m03 + a.m31 * b.m13 + a.m32 * b.m23 + a.m33 * b.m33⟩

/-- `operator*(const Vector4&)`: matrix–vector product. -/
def mulVec (a : Matrix4 α) (v : Vector4 α) : Vector4 α :=
  ⟨a.m00 * v.x + a.m01 * v.y + a.m02 * v.z + a.m03 * v.w,
   a.m10 * v.x + a.m11 * v.y + a.m12 * v.z + a.m13 * v.w,
   a.m20 * v.x + a.m21 * v.y + a.m22 * v.z + a.m23 * v.w,
   a.m30 * v.x + a.m31 * v.y + a.m32 * v.z + a.m33 * v.w⟩

end Matrix4

/-- `Quaternion<T>` from `utils/math.hpp`; default = identity rotation
    `(0,0,0,1)`. -/
structure Quaternion (α : Type) where
  x : α
  y : α
  z : α
  w : α
deriving DecidableEq

namespace Quaternion

/-- Default constructor `(0, 0, 0, 1)`. -/
def identity : Quaternion α := ⟨0, 0, 0, 1⟩

/-- `to_matrix()`: the canonical quaternion→rotation-matrix formula;
    starts from a default-constructed (identity) matrix, so row 3 and
    column 3 keep their identity values. -/
def to_matrix (q : Quaternion α) : Matrix4 α :=
  let xx := q.x * q.x
  let xy := q.x * q.y
  let xz := q.x * q.z
  let xw := q.x * q.w
  let yy := q.y * q.y
  let yz := q.y * q.z
  let yw := q.y * q.w
  let zz := q.z * q.z
  let zw := q.z * q.w
  { Matrix4.identity with
    m00 := 1 - 2 * (yy + zz)
    m01 := 2 * (xy - zw)
    m02 := 2 * (xz + yw)
    m10 := 2 * (xy + zw)
    m11 := 1 - 2 * (xx + zz)
    m12 := 2 * (yz - xw)
    m20 := 2 * (xz - yw)
    m21 := 2 * (yz + xw)
    m22 := 1 - 2 * (xx + yy) }

end Quaternion

/-- `Transform` from `utils/math.hpp`: position, rotation (default
    identity), scale (default `(1,1,1)`). -/
structure Transform (α : Type) where
  position : Vector3 α
  rotation : Quaternion α
  scale : Vector3 α
deriving DecidableEq

/-- Default-constructed `Transform`. -/
def Transform.default : Transform α :=
  ⟨Vector3.zero, Quaternion.identity, ⟨1, 1, 1⟩⟩

/-- `Transform::to_matrix()` =
    `translation(position) * rotation.to_matrix() * scale(scale)`,
    two matrix products associated left-to-right as in C++. -/
def Transform.to_matrix (t : Transform α) : Matrix4 α :=
  ((Matrix4.translation t.position).mul t.rotation.to_matrix).mul
    (Matrix4.scale t.scale)

/-- `Camera::ProjectionType` from `core/scene.hpp`. -/
inductive ProjectionType where
  | Perspective
  | Orthographic
deriving DecidableEq

/-- `Camera` from `core/scene.hpp` (an `Entity` with a name, a
    `Transform` and projection parameters).  Field names mirror the C++
    members, all with their in-class default initializers; note the
    single shared `near_` / `far_` pair used by both projection modes. -/
structure Camera (α : Type) where
  name_ : String
  transform_ : Transform α
  projection_type_ : ProjectionType
  fov_ : α
  aspect_ratio_ : α
  near_ : α
  far_ : α
  ortho_left_ : α
  ortho_right_ : α
  ortho_bottom_ : α
  ortho_top_ : α
deriving DecidableEq

namespace Camera

/-- `Camera(const std::string& name = "Camera")`: default-initialized
    members (`projection_type_ = Perspective`, `fov_ = 45`,
    `aspect_ratio_ = 16/9`, `near_ = 0.1`, `far_ = 1000`,
    ortho bounds the unit square). -/
def mkDefault (name : String := "Camera") : Camera α :=
  { name_ := name
    transform_ := Transform.default
    projection_type_ := ProjectionType.Perspective
    fov_ := 45
    aspect_ratio_ := 16 / 9
    near_ := 1 / 10
    far_ := 1000
    ortho_left_ := -1
    ortho_right_ := 1
    ortho_bottom_ := -1
    ortho_top_ := 1 }

/-- `Camera::set_perspective`: sets the mode tag and writes `fov_`,
    `aspect_ratio_`, `near_`, `far_`. -/
def set_perspective (c : Camera α) (fov aspect_ratio near far : α) : Camera α :=
  { c with
    projection_type_ := ProjectionType.Perspective
    fov_ := fov
    aspect_ratio_ := aspect_ratio
    near_ := near
    far_ := far }

/-- `Camera::set_orthographic`: sets the mode tag and writes the four
    ortho bounds plus the shared `near_`, `far_`. -/
def set_orthographic (c : Camera α) (left right bottom top near far : α) :
    Camera α :=
  { c with
    projection_type_ := ProjectionType.Orthographic
    ortho_left_ := left
    ortho_right_ := right
    ortho_bottom_ := bottom
    ortho_top_ := top
    near_ := near
    far_ := far }

/-- `Camera::get_view_matrix()` transcribed from `scene.cpp`:
    rotate the canonical forward and up by the rotation of the transform,
    re-orthogonalize, then fill every entry of a default-constructed
    matrix. -/
def get_view_matrix (sqrt : α → α) (c : Camera α) : Matrix4 α :=
  let t := c.transform_
  let pos := t.position
  let forward := t.rotation.to_matrix.mulVec ⟨0, 0, -1, 0⟩
  let up := t.rotation.to_matrix.mulVec ⟨0, 1, 0, 0⟩
  let f : Vector3 α := ⟨forward.x, forward.y, forward.z⟩
  let u0 : Vector3 α := ⟨up.x, up.y, up.z⟩
  let r := (f.cross u0).normalized sqrt
  let u := (r.cross f).normalized sqrt
  { m00 := r.x, m01 := r.y, m02 := r.z, m03 := -(r.dot pos)
    m10 := u.x, m11 := u.y, m12 := u.z, m13 := -(u.dot pos)
    m20 := -f.x, m21 := -f.y, m22 := -f.z, m23 := f.dot pos
    m30 := 0, m31 := 0, m32 := 0, m33 := 1 }

/-- `Camera::get_projection_matrix()`: the perspective factory in
    `Perspective` mode, else the orthographic matrix built inline from
    a default-constructed (identity) matrix. -/
def get_projection_matrix (tan : α → α) (pi : α) (c : Camera α) : Matrix4 α :=
  if c.projection_type_ = ProjectionType.Perspective then
    Matrix4.perspective tan pi c.fov_ c.aspect_ratio_ c.near_ c.far_
  else
    { Matrix4.identity with
      m00 := 2 / (c.ortho_right_ - c.ortho_left_)
      m11 := 2 / (c.ortho_top_ - c.ortho_bottom_)
      m22 := -2 / (c.far_ - c.near_)
      m03 := -(c.ortho_right_ + c.ortho_left_) / (c.ortho_right_ - c.ortho_left_)
      m13 := -(c.ortho_top_ + c.ortho_bottom_) / (c.ortho_top_ - c.ortho_bottom_)
      m23 := -(c.far_ + c.near_) / (c.far_ - c.near_) }

/-- `Camera::look_at(target, up)` transcribed from `scene.cpp`: computes
    `forward`, `right`, `new_up` and assembles the local
    `rotation_matrix`, but never assigns any member — the camera is
    returned unchanged, exactly as the `void` C++ body leaves `*this`. -/
def look_at (sqrt : α → α) (c : Camera α) (target up : Vector3 α) : Camera α :=
  let forward := (target.sub c.transform_.position).normalized sqrt
  let right := (forward.cross up).normalized sqrt
  let new_up := right.cross forward
  let rotation_matrix : Matrix4 α :=
    { Matrix4.identity with
      m00 := right.x, m01 := right.y, m02 := right.z
      m10 := new_up.x, m11 := new_up.y, m12 := new_up.z
      m20 := -forward.x, m21 := -forward.y, m22 := -forward.z }
  c

end Camera

/-- An entity reference held by a `Scene`.  The C++ scene stores
    `std::shared_ptr<Entity>` and compares them by pointer identity;
    `eid` models the pointer address, `name` the mutable entity
    name. -/
structure EntityRef where
  eid : Nat
  name : String
deriving DecidableEq

/-- `buildify::core::Scene`: name plus the ordered entity sequence
    (insertion order preserved). -/
structure Scene where
  name_ : String
  entities_ : List EntityRef
deriving DecidableEq

namespace Scene

/-- `Scene::Scene(name)`: empty entity sequence. -/
def create (name : String) : Scene := ⟨name, []⟩

/-- `Scene::add_entity`: `entities_.push_back(entity)`. -/
def add_entity (s : Scene) (e : EntityRef) : Scene :=
  { s with entities_ := s.entities_ ++ [e] }

/-- `std::find` + `erase`: remove the first element whose identity
    (`shared_ptr` pointer, modelled by `eid`) matches; no-op if absent. -/
def removeFirst (e : EntityRef) : List EntityRef → List EntityRef
  | [] => []
  | x :: xs => if x.eid = e.eid then xs else x :: removeFirst e xs

/-- `Scene::remove_entity`. -/
def remove_entity (s : Scene) (e : EntityRef) : Scene :=
  { s with entities_ := removeFirst e s.entities_ }

/-- `Scene::find_entity(name)`: `std::find_if` — the first entity whose
    name equals the query, `nullptr` (here `none`) when none matches. -/
def find_entity (s : Scene) (name : String) : Option EntityRef :=
  s.entities_.find? (fun e => e.name = name)

end Scene

/-- `buildify::Gaussian` from `buildify.h`: plain value type. -/
structure Gaussian (α : Type) where
  position : Vector3 α
  scale : Vector3 α
  rotation : Quaternion α
  color : Vector4 α
deriving DecidableEq

/-- `SceneImpl` from `context.cpp`: the basic Gaussian-accumulator
    scene, a `std::vector<Gaussian>`. -/
structure SceneImpl (α : Type) where
  gaussians : List (Gaussian α)
deriving DecidableEq

namespace SceneImpl

/-- `SceneImpl::addGaussian`: `gaussians.push_back(gaussian)`. -/
def addGaussian (s : SceneImpl α) (g : Gaussian α) : SceneImpl α :=
  ⟨s.gaussians ++ [g]⟩

/-- `SceneImpl::getGaussianCount`: `gaussians.size()`. -/
def getGaussianCount (s : SceneImpl α) : Nat :=
  s.gaussians.length

/-- `SceneImpl::computeRenderingLoss`: `0.1f * gaussians.size()`. -/
def computeRenderingLoss (s : SceneImpl α) : α :=
  (1 / 10) * (s.gaussians.length : α)

end SceneImpl

/-- `Context::Impl` from `context.cpp`: the only state is the
    `initialized` flag, `false` on construction. -/
structure Context where
  initialized : Bool
deriving DecidableEq

namespace Context

/-- `Context::Context()`: `initialized = false`. -/
def create : Context := ⟨false⟩

/-- `Context::initialize()`: sets the flag. -/
def initializeCtx (c : Context) : Context := ⟨true⟩

/-- `Context::createScene()`: throws `std::runtime_error("Context not
    initialized")` when not initialized, otherwise returns a fresh
    `SceneImpl`. -/
def createScene (c : Context) : Except String (SceneImpl α) :=
  if !c.initialized then
    Except.error "Context not initialized"
  else
    Except.ok ⟨[]⟩

end Context

/-- The view matrix as the specification describes it: rows
    `(right, -right·pos)`, `(up, -up·pos)`, `(-forward, forward·pos)`,
    `(0,0,0,1)`, with `forward`/`up` obtained by rotating `(0,0,-1,0)`
    and `(0,1,0,0)` and re-orthogonalizing
    `right = normalized(forward × up)`, `up = normalized(right × forward)`. -/
def view_matrix_described (sqrt : α → α) (c : Camera α) : Matrix4 α :=
  let pos := c.transform_.position
  let forward4 := c.transform_.rotation.to_matrix.mulVec ⟨0, 0, -1, 0⟩
  let up4 := c.transform_.rotation.to_matrix.mulVec ⟨0, 1, 0, 0⟩
  let forward : Vector3 α := ⟨forward4.x, forward4.y, forward4.z⟩
  let upRot : Vector3 α := ⟨up4.x, up4.y, up4.z⟩
  let right := (forward.cross upRot).normalized sqrt
  let up := (right.cross forward).normalized sqrt
  ⟨right.x, right.y, right.z, -(right.dot pos),
   up.x, up.y, up.z, -(up.dot pos),
   -forward.x, -forward.y, -forward.z, forward.dot pos,
   0, 0, 0, 1⟩

end Buildify

namespace Buildify

open Vector3 Matrix4

/-- C2: for every Camera, target and up vector, `look_at` is total
    (never throws: every operation it performs, including `normalized`
    with its zero-length fallback, is a total function) and leaves the
    stored Transform untouched — position, rotation quaternion and
    scale are unchanged, and indeed the whole camera state is
    unchanged, because the computed `rotation_matrix` is a local value
    never written back. -/
theorem look_at_does_not_mutate (sqrt : ℝ → ℝ) (c : Camera ℝ)
    (target up : Vector3 ℝ) :
    (c.look_at sqrt target up).transform_.position = c.transform_.position ∧
    (c.look_at sqrt target up).transform_.rotation = c.transform_.rotation ∧
    (c.look_at sqrt target up).transform_.scale = c.transform_.scale ∧
    c.look_at sqrt target up = c :=
  ⟨rfl, rfl, rfl, rfl⟩

/-- C3: for every Camera, `get_view_matrix` is exactly the matrix the
    specification describes: forward and up are the rotation matrix
    applied to `(0,0,-1,0)` and `(0,1,0,0)`,
    `right = normalized(forward × up)`,
    `up = normalized(right × forward)`, and the rows are
    `(right, -right·pos)`, `(up, -up·pos)`, `(-forward, forward·pos)`
    and `(0,0,0,1)`. -/
theorem get_view_matrix_matches_description (sqrt : ℝ → ℝ) (c : Camera ℝ) :
    c.get_view_matrix sqrt = view_matrix_described sqrt c :=
  rfl

/-- C4: `Transform::to_matrix` is
    `translation(position) * rotation.to_matrix() * scale(scale)` in
    that fixed left-to-right order, and the concrete transform with
    position `(1,2,3)`, identity rotation and unit scale maps the
    homogeneous origin `(0,0,0,1)` to `(1,2,3,1)`. -/
theorem to_matrix_order_and_origin :
    (∀ t : Transform ℚ,
        t.to_matrix =
          ((Matrix4.translation t.position).mul t.rotation.to_matrix).mul
            (Matrix4.scale t.scale)) ∧
    (Transform.mk ⟨1, 2, 3⟩ Quaternion.identity ⟨1, 1, 1⟩ :
        Transform ℚ).to_matrix.mulVec ⟨0, 0, 0, 1⟩ = ⟨1, 2, 3, 1⟩ := by
  refine ⟨fun _ => rfl, ?_⟩
  norm_num [Transform.to_matrix, Matrix4.translation, Matrix4.scale,
    Matrix4.identity, Quaternion.identity, Quaternion.to_matrix,
    Matrix4.mul, Matrix4.mulVec, Vector4.mk.injEq]

/-- C5: `Matrix4::perspective` treats `fov` as degrees (scaled by
    π/180) and sets `m00 = 1/(aspect·tan(fov_rad/2))`,
    `m11 = 1/tan(fov_rad/2)`, `m22 = -(far+near)/(far-near)`,
    `m23 = -2·far·near/(far-near)`, `m32 = -1`, `m33 = 0`; a Camera
    with the default perspective parameters has a projection matrix
    with `m32 = -1` and `m33 = 0`. -/
theorem perspective_entries_and_default_camera :
    (∀ (fov aspect near far : ℝ),
        (Matrix4.perspective Real.tan Real.pi fov aspect near far).m00 =
            1 / (aspect * Real.tan (fov * Real.pi / 180 / 2)) ∧
        (Matrix4.perspective Real.tan Real.pi fov aspect near far).m11 =
            1 / Real.tan (fov * Real.pi / 180 / 2) ∧
        (Matrix4.perspective Real.tan Real.pi fov aspect near far).m22 =
            -(far + near) / (far - near) ∧
        (Matrix4.perspective Real.tan Real.pi fov aspect near far).m23 =
            -(2 * far * near) / (far - near) ∧
        (Matrix4.perspective Real.tan Real.pi fov aspect near far).m32 = -1 ∧
        (Matrix4.perspective Real.tan Real.pi fov aspect near far).m33 = 0) ∧
    ((Camera.mkDefault "Camera" : Camera ℝ).get_projection_matrix
        Real.tan Real.pi).m32 = -1 ∧
    ((Camera.mkDefault "Camera" : Camera ℝ).get_projection_matrix
        Real.tan Real.pi).m33 = 0 := by
  have harg : ∀ fov : ℝ, fov * (1 / 2) * Real.pi / 180 = fov * Real.pi / 180 / 2 := by
    intro fov; ring
  refine ⟨fun fov aspect near far => ?_, rfl, rfl⟩
  refine ⟨?_, ?_, rfl, rfl, rfl, rfl⟩
  · show 1 / (aspect * Real.tan (fov * (1 / 2) * Real.pi / 180)) = _
    rw [harg]
  · show 1 / Real.tan (fov * (1 / 2) * Real.pi / 180) = _
    rw [harg]

/-- C6: `Context::createScene` throws (`"Context not initialized"`)
    when called on a fresh, uninitialized context, and after
    `initialize()` it succeeds and returns a new, empty Scene. -/
theorem createScene_requires_initialization :
    (Context.create.createScene : Except String (SceneImpl ℚ)) =
        Except.error "Context not initialized" ∧
    (Context.create.initializeCtx.createScene : Except String (SceneImpl ℚ)) =
        Except.ok ⟨[]⟩ :=
  ⟨rfl, rfl⟩

/-- C9: the cross product is anti-commutative — `a.cross(b)` is the
    scalar `-1` multiple (the negation) of `b.cross(a)`. -/
theorem cross_anticomm (a b : Vector3 ℝ) :
    a.cross b = (b.cross a).smul (-1) := by
  simp only [Vector3.cross, Vector3.smul, Vector3.mk.injEq]
  refine ⟨by ring, by ring, by ring⟩

/-- C10: `computeRenderingLoss` returns `0.1` (exactly `1/10` in this
    idealized arithmetic) times `getGaussianCount`; it is `0` on the
    empty scene and grows by `0.1` with each `addGaussian`. -/
theorem computeRenderingLoss_is_tenth_of_count :
    (∀ s : SceneImpl ℚ,
        s.computeRenderingLoss = (1 / 10) * (s.getGaussianCount : ℚ)) ∧
    (SceneImpl.mk ([] : List (Gaussian ℚ))).computeRenderingLoss = 0 ∧
    (∀ (s : SceneImpl ℚ) (g : Gaussian ℚ),
        (s.addGaussian g).computeRenderingLoss =
          s.computeRenderingLoss + 1 / 10) := by
  refine ⟨fun s => rfl, by norm_num [SceneImpl.computeRenderingLoss], ?_⟩
  intro s g
  simp only [SceneImpl.computeRenderingLoss, SceneImpl.addGaussian,
    List.length_append, List.length_cons, List.length_nil]
  push_cast
  ring

/-- Helper: `List.find?` returns the first element satisfying the
    predicate — there is a split of the list at the result in which
    every earlier element fails the predicate. -/
theorem find?_eq_some_first {p : EntityRef → Bool} :
    ∀ {l : List EntityRef} {e : EntityRef}, l.find? p = some e →
      p e = true ∧ ∃ pre post, l = pre ++ e :: post ∧ ∀ x ∈ pre, p x = false := by
  intro l
  induction l with
  | nil => intro e h; simp [List.find?] at h
  | cons a as ih =>
    intro e h
    by_cases hp : p a = true
    · rw [List.find?] at h
      rw [hp] at h
      cases h
      exact ⟨hp, [], as, rfl, by simp⟩
    · rw [List.find?] at h
      rw [Bool.of_not_eq_true hp] at h
      obtain ⟨hpe, pre, post, heq, hall⟩ := ih h
      refine ⟨hpe, a :: pre, post, by rw [heq]; rfl, ?_⟩
      intro x hx
      rcases List.mem_cons.mp hx with hx | hx
      · rw [hx]; exact Bool.of_not_eq_true hp
      · exact hall x hx

/-- Helper: removing an entity whose identity occurs nowhere in the
    list is a no-op. -/
theorem removeFirst_of_not_mem :
    ∀ (l : List EntityRef) (e : EntityRef),
      (∀ x ∈ l, x.eid ≠ e.eid) → Scene.removeFirst e l = l := by
  intro l e h
  induction l with
  | nil => rfl
  | cons a as ih =>
    rw [Scene.removeFirst, if_neg (h a (List.mem_cons_self a as))]
    rw [ih fun x hx => h x (List.mem_cons_of_mem a hx)]

/-- Helper: `removeFirst` deletes exactly the first identity match. -/
theorem removeFirst_first_match :
    ∀ (pre : List EntityRef) (post : List EntityRef) (x e : EntityRef),
      x.eid = e.eid → (∀ p ∈ pre, p.eid ≠ e.eid) →
      Scene.removeFirst e (pre ++ x :: post) = pre ++ post := by
  intro pre
  induction pre with
  | nil =>
    intro post x e hx _
    simp only [List.nil_append, Scene.removeFirst, if_pos hx]
  | cons a as ih =>
    intro post x e hx h
    simp only [List.cons_append, Scene.removeFirst]
    rw [if_neg (h a (List.mem_cons_self a as))]
    exact congrArg (List.cons a)
      (ih post x e hx fun p hp => h p (List.mem_cons_of_mem a hp))

/-- C7: `find_entity` returns the first-inserted entity whose name
    equals the query (`none` when no entity matches — a total lookup,
    never a throw); `remove_entity` removes exactly the first entity
    matching by reference identity and is a no-op when the entity is
    absent.  Concretely: a scene with entities "A" then "B" finds "A",
    and after removing it, "A" is absent and one entity remains. -/
theorem scene_find_and_remove :
    (∀ (s : Scene) (n : String) (e : EntityRef),
        s.find_entity n = some e →
          e.name = n ∧ ∃ pre post, s.entities_ = pre ++ e :: post ∧
            ∀ x ∈ pre, x.name ≠ n) ∧
    (∀ (s : Scene) (n : String),
        s.find_entity n = none → ∀ e ∈ s.entities_, e.name ≠ n) ∧
    (∀ (s : Scene) (e : EntityRef),
        (∀ x ∈ s.entities_, x.eid ≠ e.eid) → s.remove_entity e = s) ∧
    (∀ (s : Scene) (e x : EntityRef) (pre post : List EntityRef),
        s.entities_ = pre ++ x :: post → x.eid = e.eid →
        (∀ p ∈ pre, p.eid ≠ e.eid) →
        (s.remove_entity e).entities_ = pre ++ post) ∧
    ((((Scene.create "S").add_entity ⟨0, "A"⟩).add_entity
        ⟨1, "B"⟩).find_entity "A" = some ⟨0, "A"⟩ ∧
      ((((Scene.create "S").add_entity ⟨0, "A"⟩).add_entity
          ⟨1, "B"⟩).remove_entity ⟨0, "A"⟩).find_entity "A" = none ∧
      ((((Scene.create "S").add_entity ⟨0, "A"⟩).add_entity
          ⟨1, "B"⟩).remove_entity ⟨0, "A"⟩).entities_.length = 1) := by
  refine ⟨?_, ?_, ?_, ?_, by decide⟩
  · intro s n e h
    obtain ⟨hpe, pre, post, heq, hall⟩ := find?_eq_some_first h
    refine ⟨by simpa using hpe, pre, post, heq, ?_⟩
    intro x hx
    simpa using hall x hx
  · intro s n h e he
    have := List.find?_eq_none.mp h e he
    simpa using this
  · intro s e h
    have : Scene.removeFirst e s.entities_ = s.entities_ :=
      removeFirst_of_not_mem s.entities_ e h
    cases s with
    | mk nm ents =>
      simp only [Scene.remove_entity]
      rw [this]
  · intro s e x pre post heq hx hall
    simp only [Scene.remove_entity]
    rw [heq, removeFirst_first_match pre post x e hx hall]

/-- Witness for C7: removing an entity absent (by identity) from a
    concrete one-entity scene leaves the scene unchanged. -/
theorem scene_find_and_remove_witness :
    ((Scene.create "S").add_entity ⟨0, "A"⟩).remove_entity ⟨5, "Z"⟩ =
      (Scene.create "S").add_entity ⟨0, "A"⟩ :=
  scene_find_and_remove.2.2.1 ((Scene.create "S").add_entity ⟨0, "A"⟩)
    ⟨5, "Z"⟩ (by decide)

/-- C8: a Vector3 of positive length normalizes to a unit vector
    (exactly, in this idealized real arithmetic), and the zero vector
    normalizes to the zero vector — a defined fallback, not an error. -/
theorem normalized_unit_or_zero :
    (∀ v : Vector3 ℝ, 0 < v.length Real.sqrt →
        (v.normalized Real.sqrt).length Real.sqrt = 1) ∧
    (Vector3.zero : Vector3 ℝ).normalized Real.sqrt = Vector3.zero := by
  constructor
  · intro v h
    have hS : 0 < v.x * v.x + v.y * v.y + v.z * v.z := Real.sqrt_pos.mp h
    have hL2 : v.length Real.sqrt * v.length Real.sqrt =
        v.x * v.x + v.y * v.y + v.z * v.z := Real.mul_self_sqrt hS.le
    simp only [Vector3.normalized]
    rw [if_pos h]
    have key : (v.smul (1 / v.length Real.sqrt)).x *
          (v.smul (1 / v.length Real.sqrt)).x +
        (v.smul (1 / v.length Real.sqrt)).y *
          (v.smul (1 / v.length Real.sqrt)).y +
        (v.smul (1 / v.length Real.sqrt)).z *
          (v.smul (1 / v.length Real.sqrt)).z = 1 := by
      simp only [Vector3.smul]
      have hrw : (v.x * (1 / v.length Real.sqrt)) * (v.x * (1 / v.length Real.sqrt)) +
          (v.y * (1 / v.length Real.sqrt)) * (v.y * (1 / v.length Real.sqrt)) +
          (v.z * (1 / v.length Real.sqrt)) * (v.z * (1 / v.length Real.sqrt)) =
          (v.x * v.x + v.y * v.y + v.z * v.z) /
            (v.length Real.sqrt * v.length Real.sqrt) := by
        ring
      rw [hrw, hL2, div_self (ne_of_gt hS)]
    show Real.sqrt _ = 1
    rw [key, Real.sqrt_one]
  · simp only [Vector3.normalized]
    rw [if_neg]
    simp only [Vector3.length, Vector3.zero]
    norm_num

/-- Witness for C8: the vector `(3,4,0)` has positive length and its
    normalization has length 1. -/
theorem normalized_unit_or_zero_witness :
    0 < (Vector3.mk 3 4 0 : Vector3 ℝ).length Real.sqrt ∧
    ((Vector3.mk 3 4 0 : Vector3 ℝ).normalized Real.sqrt).length Real.sqrt = 1 := by
  have h : 0 < (Vector3.mk 3 4 0 : Vector3 ℝ).length Real.sqrt := by
    have h25 : (Vector3.mk 3 4 0 : Vector3 ℝ).length Real.sqrt =
        Real.sqrt 25 := by
      norm_num [Vector3.length]
    rw [h25]
    exact Real.sqrt_pos.mpr (by norm_num)
  exact ⟨h, normalized_unit_or_zero.1 _ h⟩

/-- C1 counterexample: on the code, `set_orthographic` does NOT leave
    the perspective-mode parameters unchanged — `near_` and `far_` are
    a single pair shared by both modes.  The default camera has
    `near_ = 0.1`; after `set_orthographic(-1, 1, -1, 1, 5, 10)` its
    `near_` (the very field the perspective branch reads) is `5`. -/
theorem set_orthographic_overwrites_shared_near :
    ((Camera.mkDefault "Camera" : Camera ℚ).set_orthographic
        (-1) 1 (-1) 1 5 10).near_ = 5 ∧
    (Camera.mkDefault "Camera" : Camera ℚ).near_ = 1 / 10 ∧
    ((Camera.mkDefault "Camera" : Camera ℚ).set_orthographic
        (-1) 1 (-1) 1 5 10).near_ ≠
      (Camera.mkDefault "Camera" : Camera ℚ).near_ := by
  refine ⟨rfl, rfl, ?_⟩
  show (5 : ℚ) ≠ 1 / 10
  norm_num

/-- C1 (amended): each projection setter preserves the other mode
    exclusive parameters — `set_orthographic` leaves `fov_` and
    `aspect_ratio_` unchanged, `set_perspective` leaves the four ortho
    bounds unchanged — but `near_`/`far_` are one shared pair that both
    setters overwrite; and `get_projection_matrix` reads only the
    exclusive parameters of the active tag plus the shared `near_`/`far_`:
    in Perspective mode it is invariant under arbitrary changes of the
    ortho bounds, in Orthographic mode invariant under arbitrary
    changes of `fov_` and `aspect_ratio_`. -/
theorem camera_mode_params_amended :
    (∀ (c : Camera ℝ) (l r b t n f : ℝ),
        (c.set_orthographic l r b t n f).fov_ = c.fov_ ∧
        (c.set_orthographic l r b t n f).aspect_ratio_ = c.aspect_ratio_ ∧
        (c.set_orthographic l r b t n f).near_ = n ∧
        (c.set_orthographic l r b t n f).far_ = f) ∧
    (∀ (c : Camera ℝ) (fov asp n f : ℝ),
        (c.set_perspective fov asp n f).ortho_left_ = c.ortho_left_ ∧
        (c.set_perspective fov asp n f).ortho_right_ = c.ortho_right_ ∧
        (c.set_perspective fov asp n f).ortho_bottom_ = c.ortho_bottom_ ∧
        (c.set_perspective fov asp n f).ortho_top_ = c.ortho_top_ ∧
        (c.set_perspective fov asp n f).near_ = n ∧
        (c.set_perspective fov asp n f).far_ = f) ∧
    (∀ (tn : ℝ → ℝ) (pi : ℝ) (c : Camera ℝ) (l r b t : ℝ),
        c.projection_type_ = ProjectionType.Perspective →
        Camera.get_projection_matrix tn pi
            { c with ortho_left_ := l, ortho_right_ := r,
                     ortho_bottom_ := b, ortho_top_ := t } =
          Camera.get_projection_matrix tn pi c) ∧
    (∀ (tn : ℝ → ℝ) (pi : ℝ) (c : Camera ℝ) (fov asp : ℝ),
        c.projection_type_ = ProjectionType.Orthographic →
        Camera.get_projection_matrix tn pi
            { c with fov_ := fov, aspect_ratio_ := asp } =
          Camera.get_projection_matrix tn pi c) := by
  refine ⟨fun c l r b t n f => ⟨rfl, rfl, rfl, rfl⟩,
    fun c fov asp n f => ⟨rfl, rfl, rfl, rfl, rfl, rfl⟩, ?_, ?_⟩
  · intro tn pi c l r b t h
    simp [Camera.get_projection_matrix, h]
  · intro tn pi c fov asp h
    simp [Camera.get_projection_matrix, h]

/-- Witness for C1 (amended): at the default (perspective) camera, the
    projection matrix is unchanged by replacing all four ortho bounds. -/
theorem camera_mode_params_amended_witness :
    Camera.get_projection_matrix Real.tan Real.pi
        { (Camera.mkDefault "Camera" : Camera ℝ) with
          ortho_left_ := 7, ortho_right_ := 8,
          ortho_bottom_ := 9, ortho_top_ := 10 } =
      Camera.get_projection_matrix Real.tan Real.pi
        (Camera.mkDefault "Camera") :=
  camera_mode_params_amended.2.2.1 Real.tan Real.pi
    (Camera.mkDefault "Camera") 7 8 9 10 rfl

end Buildify
